import Mathlib

/-!
Shallow embedding of four collectors of a Windows metrics exporter:
the scheduled_task collector (COM Task Scheduler traversal, include/exclude
filtering, state/last-result/missed-runs samples), the .NET CLR exceptions and
CLR JIT collectors (WMI typed rows, aggregate-sentinel skip, counter widening,
percent-time division), and the VMware guest collector (two independent pdh
queries with joined errors).

Modelling conventions:
  - A compiled regular expression is embedded as its match predicate
    `String → Bool` (the regexp engine is an external library).
  - float64 sample values are embedded as `FloatVal`: a finite rational or a
    non-finite value.  Widening a 32-bit unsigned counter into float64 is
    exact (2^32 < 2^53), so it is embedded as the injection `Nat → ℚ`.
    Division of a finite float64 numerator below 2^32 by a zero divisor yields
    +Inf or NaN, both non-finite; by a non-zero integer divisor it yields a
    finite value, embedded as exact rational division.
  - A WMI/pdh query result is an `Except`: `error` is the native failure,
    `ok` the typed row list.
  - Metric channel emission is embedded as the ordered list of emitted
    samples.
-/

/-- A float64 metric value: either a finite number (embedded exactly as a
rational) or a non-finite value (Inf or NaN). -/
inductive FloatVal where
  | finite (q : ℚ)
  | nonfinite
deriving Repr, DecidableEq

/-- float64 division as used on counter data: a zero divisor yields a
non-finite result (+Inf or NaN), a non-zero divisor a finite quotient. -/
def fdiv (a b : ℚ) : FloatVal :=
  if b = 0 then FloatVal.nonfinite else FloatVal.finite (a / b)

/-- One emitted metric sample: descriptor identity (metric name), ordered
label values, numeric value. -/
structure Sample where
  metric : String
  labels : List String
  value : FloatVal
deriving Repr, DecidableEq

/-! ## scheduled_task collector -/

/-- Go `type TaskState uint`. -/
abbrev TaskState := Nat

/-- Go `type TaskResult uint`. -/
abbrev TaskResult := Nat

def TASK_STATE_UNKNOWN : TaskState := 0

def TASK_STATE_DISABLED : TaskState := 1

def TASK_STATE_QUEUED : TaskState := 2

def TASK_STATE_READY : TaskState := 3

def TASK_STATE_RUNNING : TaskState := 4

def SCHED_S_SUCCESS : TaskResult := 0x0

def SCHED_S_TASK_HAS_NOT_RUN : TaskResult := 0x00041303

/-- A parsed scheduled task (source struct `ScheduledTask`).
`MissedRunsCount` is a float64 in the source, embedded as a rational. -/
structure ScheduledTask where
  Name : String
  Path : String
  Enabled : Bool
  State : TaskState
  MissedRunsCount : ℚ
  LastTaskResult : TaskResult
deriving Repr, DecidableEq

/-- Collector configuration: compiled exclude/include regular expressions,
embedded as their match predicates on a task path. -/
structure Config where
  TaskExclude : String → Bool
  TaskInclude : String → Bool

/-- Source `TaskState.String`. -/
def taskStateString (t : TaskState) : String :=
  if t = TASK_STATE_UNKNOWN then "Unknown"
  else if t = TASK_STATE_DISABLED then "Disabled"
  else if t = TASK_STATE_QUEUED then "Queued"
  else if t = TASK_STATE_READY then "Ready"
  else if t = TASK_STATE_RUNNING then "Running"
  else ""

/-- Go `strings.ToLower`; all inputs produced by `taskStateString` are
ASCII, where per-character lowering coincides with Go's Unicode lowering. -/
def goToLower (s : String) : String :=
  ⟨s.data.map Char.toLower⟩

def TASK_STATES : List String :=
  ["disabled", "queued", "ready", "running", "unknown"]

/-- The state-label samples emitted for one task: one gauge per entry of
`TASK_STATES`, value 1.0 iff the lowered state string equals the label. -/
def taskStateSamples (t : ScheduledTask) : List Sample :=
  TASK_STATES.map fun state =>
    { metric := "state"
      labels := [t.Path, state]
      value := FloatVal.finite
        (if goToLower (taskStateString t.State) = state then 1 else 0) }

/-- The last_result / missed_runs samples emitted for one task: none when
`LastTaskResult` is the has-not-run sentinel, otherwise both, with
last_result 1.0 iff the result is `SCHED_S_SUCCESS`. -/
def taskResultSamples (t : ScheduledTask) : List Sample :=
  if t.LastTaskResult = SCHED_S_TASK_HAS_NOT_RUN then []
  else
    [ { metric := "last_result"
        labels := [t.Path]
        value := FloatVal.finite
          (if t.LastTaskResult = SCHED_S_SUCCESS then 1 else 0) },
      { metric := "missed_runs"
        labels := [t.Path]
        value := FloatVal.finite t.MissedRunsCount } ]

/-- One iteration of the loop body of `Collector.collect`: skip the task when
the exclude pattern matches its path or the include pattern does not,
otherwise emit the state samples followed by the result samples. -/
def collectTask (c : Config) (t : ScheduledTask) : List Sample :=
  if c.TaskExclude t.Path || !(c.TaskInclude t.Path) then []
  else taskStateSamples t ++ taskResultSamples t

/-- `Collector.collect` over an already-fetched task list. -/
def scheduledTaskCollect (c : Config) (tasks : List ScheduledTask) : List Sample :=
  tasks.flatMap (collectTask c)

/-! ## scheduled_task folder traversal -/

/-- A task-scheduler folder: its own registered tasks and its sub-folders
(source: the COM objects walked by `fetchTasksRecursively`). -/
inductive TaskFolder where
  | mk (tasks : List ScheduledTask) (subFolders : List TaskFolder)

def TaskFolder.tasks : TaskFolder → List ScheduledTask
  | .mk ts _ => ts

def TaskFolder.subFolders : TaskFolder → List TaskFolder
  | .mk _ subs => subs

/-- Source `fetchTasksInFolder`: append every task registered directly in the
folder to the accumulator (the `*scheduledTasks = append(...)` loop). -/
def fetchTasksInFolder (folder : TaskFolder) (scheduledTasks : List ScheduledTask) :
    List ScheduledTask :=
  scheduledTasks ++ folder.tasks

mutual

/-- Source `fetchTasksRecursively`: first the folder's own tasks, then a
depth-first recursion over its sub-folders in order. -/
def fetchTasksRecursively (folder : TaskFolder) (scheduledTasks : List ScheduledTask) :
    List ScheduledTask :=
  match folder with
  | .mk ts subs => fetchSubFolders subs (fetchTasksInFolder (.mk ts subs) scheduledTasks)

/-- The `oleutil.ForEach` loop over `GetFolders`: recurse into each sub-folder
in order, threading the accumulator. -/
def fetchSubFolders (folders : List TaskFolder) (scheduledTasks : List ScheduledTask) :
    List ScheduledTask :=
  match folders with
  | [] => scheduledTasks
  | f :: fs => fetchSubFolders fs (fetchTasksRecursively f scheduledTasks)

end

mutual

/-- Specification-side canonical flatten of a folder tree: a folder's own
leaf tasks, then the tasks of its sub-folders depth-first, each reachable
leaf listed exactly once. -/
def specReachableTasks : TaskFolder → List ScheduledTask
  | .mk ts subs => ts ++ specReachableTasksList subs

def specReachableTasksList : List TaskFolder → List ScheduledTask
  | [] => []
  | f :: fs => specReachableTasks f ++ specReachableTasksList fs

end

/-! ## netframework CLR exceptions collector -/

/-- Typed WMI row for the CLR exceptions query; `uint32` fields embedded as
naturals (the mi mapper yields values below 2^32). -/
structure Win32_PerfRawData_NETFramework_NETCLRExceptions where
  Name : String
  NumberofExcepsThrown : Nat
  NumberofExcepsThrownPersec : Nat
  NumberofFiltersPersec : Nat
  NumberofFinallysPersec : Nat
  ThrowToCatchDepthPersec : Nat
deriving Repr, DecidableEq

/-- The four samples the CLR exceptions loop body emits for one process row;
each float64 value is the exact widening of a 32-bit unsigned counter. -/
def clrExceptionsSamples (p : Win32_PerfRawData_NETFramework_NETCLRExceptions) :
    List Sample :=
  [ { metric := "exceptions_thrown_total"
      labels := [p.Name]
      value := FloatVal.finite (p.NumberofExcepsThrown : ℚ) },
    { metric := "exceptions_filters_total"
      labels := [p.Name]
      value := FloatVal.finite (p.NumberofFiltersPersec : ℚ) },
    { metric := "exceptions_finallys_total"
      labels := [p.Name]
      value := FloatVal.finite (p.NumberofFinallysPersec : ℚ) },
    { metric := "throw_to_catch_depth_total"
      labels := [p.Name]
      value := FloatVal.finite (p.ThrowToCatchDepthPersec : ℚ) } ]

/-- One iteration of the loop of `collectClrExceptions`: skip the aggregate
sentinel row, otherwise emit the four samples. -/
def clrExceptionsRowStep (p : Win32_PerfRawData_NETFramework_NETCLRExceptions) :
    List Sample :=
  if p.Name = "_Global_" then [] else clrExceptionsSamples p

/-- `Collector.collectClrExceptions` over an already-queried row list. -/
def collectClrExceptions (dst : List Win32_PerfRawData_NETFramework_NETCLRExceptions) :
    List Sample :=
  dst.flatMap clrExceptionsRowStep

/-! ## netframework CLR JIT collector -/

/-- Typed WMI row for the CLR JIT query. -/
structure Win32_PerfRawData_NETFramework_NETCLRJit where
  Name : String
  Frequency_PerfTime : Nat
  ILBytesJittedPersec : Nat
  NumberofILBytesJitted : Nat
  NumberofMethodsJitted : Nat
  PercentTimeinJit : Nat
  StandardJitFailures : Nat
  TotalNumberofILBytesJitted : Nat
deriving Repr, DecidableEq

/-- The four samples the CLR JIT loop body emits for one process row; the
time-in-JIT gauge divides the raw numerator by the frequency divisor at
emission time. -/
def clrJITSamples (p : Win32_PerfRawData_NETFramework_NETCLRJit) : List Sample :=
  [ { metric := "jit_methods_total"
      labels := [p.Name]
      value := FloatVal.finite (p.NumberofMethodsJitted : ℚ) },
    { metric := "jit_time_percent"
      labels := [p.Name]
      value := fdiv (p.PercentTimeinJit : ℚ) (p.Frequency_PerfTime : ℚ) },
    { metric := "jit_standard_failures_total"
      labels := [p.Name]
      value := FloatVal.finite (p.StandardJitFailures : ℚ) },
    { metric := "jit_il_bytes_total"
      labels := [p.Name]
      value := FloatVal.finite (p.TotalNumberofILBytesJitted : ℚ) } ]

/-- One iteration of the loop of `collectClrJIT`: skip the aggregate sentinel
row, otherwise emit the four samples. -/
def clrJITRowStep (p : Win32_PerfRawData_NETFramework_NETCLRJit) : List Sample :=
  if p.Name = "_Global_" then [] else clrJITSamples p

/-- `Collector.collectClrJIT` over an already-queried row list. -/
def collectClrJIT (dst : List Win32_PerfRawData_NETFramework_NETCLRJit) : List Sample :=
  dst.flatMap clrJITRowStep

/-! ## vmware collector -/

/-- Typed pdh row for the VM Processor query (float64 fields, embedded as
rationals); field set as used by `collectCpu`. -/
structure perfDataCounterValuesCPU where
  CPULimitMHz : ℚ
  CPUReservationMHz : ℚ
  CPUShares : ℚ
  CPUStolenMs : ℚ
  CPUTimePercents : ℚ
  CPUEffectiveVMSpeedMHz : ℚ
  CPUHostProcessorSpeedMHz : ℚ
deriving Repr, DecidableEq

/-- Typed pdh row for the VM Memory query; field set as used by
`collectMem`. -/
structure perfDataCounterValuesMemory where
  MemActiveMB : ℚ
  MemBalloonedMB : ℚ
  MemLimitMB : ℚ
  MemMappedMB : ℚ
  MemOverheadMB : ℚ
  MemReservationMB : ℚ
  MemSharedMB : ℚ
  MemSharedSavedMB : ℚ
  MemShares : ℚ
  MemSwappedMB : ℚ
  MemTargetSizeMB : ℚ
  MemUsedMB : ℚ
deriving Repr, DecidableEq

/-- Repository helper `utils.MBToBytes` (source file not included here),
embedded by its meaning: megabytes to bytes. -/
def MBToBytes (mb : ℚ) : ℚ :=
  mb * 1048576

/-- Repository helper `utils.MilliSecToSec` (source file not included here),
embedded by its meaning: milliseconds to seconds. -/
def MilliSecToSec (ms : ℚ) : ℚ :=
  ms / 1000

/-- `Collector.Build` of the vmware collector, with the outcome of the two
independent `pdh.NewCollector` constructions abstracted as optional native
error messages.  The return value is the operand list of the final
`errors.Join(errs...)`: the empty list is the nil error, a non-empty list is
one joined error wrapping every listed failure. -/
def vmwareBuild (cpuNewErr memNewErr : Option String) : List String :=
  (match cpuNewErr with
   | some e => ["failed to create VM Processor collector: " ++ e]
   | none => []) ++
  (match memNewErr with
   | some e => ["failed to create VM Memory collector: " ++ e]
   | none => [])

/-- The twelve samples `collectMem` emits from the first row of a successful
VM Memory query. -/
def vmwareMemSamples (r : perfDataCounterValuesMemory) : List Sample :=
  [ { metric := "mem_active_bytes", labels := [], value := FloatVal.finite (MBToBytes r.MemActiveMB) },
    { metric := "mem_ballooned_bytes", labels := [], value := FloatVal.finite (MBToBytes r.MemBalloonedMB) },
    { metric := "mem_limit_bytes", labels := [], value := FloatVal.finite (MBToBytes r.MemLimitMB) },
    { metric := "mem_mapped_bytes", labels := [], value := FloatVal.finite (MBToBytes r.MemMappedMB) },
    { metric := "mem_overhead_bytes", labels := [], value := FloatVal.finite (MBToBytes r.MemOverheadMB) },
    { metric := "mem_reservation_bytes", labels := [], value := FloatVal.finite (MBToBytes r.MemReservationMB) },
    { metric := "mem_shared_bytes", labels := [], value := FloatVal.finite (MBToBytes r.MemSharedMB) },
    { metric := "mem_shared_saved_bytes", labels := [], value := FloatVal.finite (MBToBytes r.MemSharedSavedMB) },
    { metric := "mem_shares", labels := [], value := FloatVal.finite r.MemShares },
    { metric := "mem_swapped_bytes", labels := [], value := FloatVal.finite (MBToBytes r.MemSwappedMB) },
    { metric := "mem_target_size_bytes", labels := [], value := FloatVal.finite (MBToBytes r.MemTargetSizeMB) },
    { metric := "mem_used_bytes", labels := [], value := FloatVal.finite (MBToBytes r.MemUsedMB) } ]

/-- The seven samples `collectCpu` emits from the first row of a successful
VM Processor query. -/
def vmwareCpuSamples (r : perfDataCounterValuesCPU) : List Sample :=
  [ { metric := "cpu_limit_mhz", labels := [], value := FloatVal.finite r.CPULimitMHz },
    { metric := "cpu_reservation_mhz", labels := [], value := FloatVal.finite r.CPUReservationMHz },
    { metric := "cpu_shares", labels := [], value := FloatVal.finite r.CPUShares },
    { metric := "cpu_stolen_seconds_total", labels := [], value := FloatVal.finite (MilliSecToSec r.CPUStolenMs) },
    { metric := "cpu_time_seconds_total", labels := [], value := FloatVal.finite (MilliSecToSec r.CPUTimePercents) },
    { metric := "cpu_effective_vm_speed_mhz_total", labels := [], value := FloatVal.finite r.CPUEffectiveVMSpeedMHz },
    { metric := "host_processor_speed_mhz", labels := [], value := FloatVal.finite r.CPUHostProcessorSpeedMHz } ]

/-- Outcome of one sub-collect call: samples emitted and nil error, a wrapped
query error with no samples, or an out-of-bounds slice index (a Go runtime
panic, not a returned error). -/
inductive CollectOutcome where
  | ok (samples : List Sample)
  | fail (err : String)
  | outOfBounds
deriving Repr, DecidableEq

/-- `Collector.collectMem` with the pdh query result abstracted as an
`Except`: on query error return the wrapped error; otherwise index row 0
unconditionally, which on an empty row list is out of bounds. -/
def vmwareCollectMem (res : Except String (List perfDataCounterValuesMemory)) :
    CollectOutcome :=
  match res with
  | .error e => .fail ("failed to collect VM Memory metrics: " ++ e)
  | .ok [] => .outOfBounds
  | .ok (r :: _) => .ok (vmwareMemSamples r)

/-- `Collector.collectCpu`, likewise. -/
def vmwareCollectCpu (res : Except String (List perfDataCounterValuesCPU)) :
    CollectOutcome :=
  match res with
  | .error e => .fail ("failed to collect VM CPU metrics: " ++ e)
  | .ok [] => .outOfBounds
  | .ok (r :: _) => .ok (vmwareCpuSamples r)

def CollectOutcome.samples : CollectOutcome → List Sample
  | .ok s => s
  | _ => []

/-- The error contribution of one sub-collect to the `errs` slice of
`Collector.Collect`, with the wrapping applied there. -/
def CollectOutcome.errs (wrap : String) : CollectOutcome → List String
  | .fail e => [wrap ++ e]
  | _ => []

/-- `Collector.Collect` of the vmware collector: run `collectCpu`, then
`collectMem`, regardless of each other's failure; return the emitted samples
in order and the operand list of the final `errors.Join(errs...)`.  `none`
embeds a propagating runtime panic (an out-of-bounds index aborts the call;
a panic in `collectCpu` prevents `collectMem` from running at all). -/
def vmwareCollect (cpuRes : Except String (List perfDataCounterValuesCPU))
    (memRes : Except String (List perfDataCounterValuesMemory)) :
    Option (List Sample × List String) :=
  match vmwareCollectCpu cpuRes with
  | .outOfBounds => none
  | cpuOut =>
    match vmwareCollectMem memRes with
    | .outOfBounds => none
    | memOut =>
      some (cpuOut.samples ++ memOut.samples,
        cpuOut.errs "failed collecting vmware cpu metrics: " ++
          memOut.errs "failed collecting vmware memory metrics: ")

/-! ## Helper lemmas -/

mutual

theorem fetchTasksRecursively_eq (folder : TaskFolder) (acc : List ScheduledTask) :
    fetchTasksRecursively folder acc = acc ++ specReachableTasks folder := by
  match folder with
  | .mk ts subs =>
    rw [fetchTasksRecursively, fetchTasksInFolder, fetchSubFolders_eq subs,
      specReachableTasks]
    simp [TaskFolder.tasks]

theorem fetchSubFolders_eq (folders : List TaskFolder) (acc : List ScheduledTask) :
    fetchSubFolders folders acc = acc ++ specReachableTasksList folders := by
  match folders with
  | [] =>
    rw [fetchSubFolders, specReachableTasksList]
    simp
  | f :: fs =>
    rw [fetchSubFolders, fetchTasksRecursively_eq f, fetchSubFolders_eq fs,
      specReachableTasksList]
    simp

end

/-! ## Claim theorems -/

/-- C6: for every finite task-folder tree, `fetchTasksRecursively` terminates
(it is a total function of the tree) and appends exactly the canonical
depth-first flatten of the tree to the accumulator: a folder's own tasks
first, then its sub-folders' tasks in order, every reachable leaf exactly
once and no folder revisited. -/
theorem fetchTasksRecursively_visits_each_leaf_once (folder : TaskFolder)
    (acc : List ScheduledTask) :
    fetchTasksRecursively folder acc = acc ++ specReachableTasks folder :=
  fetchTasksRecursively_eq folder acc

/-- C2: in both CLR collectors, a row whose instance name is the aggregate
sentinel produces no samples at all, and every other row produces its full
set of four per-instance samples. -/
theorem clr_sentinel_row_never_emitted :
    (∀ dst, collectClrExceptions dst =
      (dst.filter fun p => p.Name ≠ "_Global_").flatMap clrExceptionsSamples) ∧
    (∀ dst, collectClrJIT dst =
      (dst.filter fun p => p.Name ≠ "_Global_").flatMap clrJITSamples) ∧
    (∀ p, (clrExceptionsSamples p).length = 4) ∧
    (∀ p, (clrJITSamples p).length = 4) := by
  refine ⟨fun dst => ?_, fun dst => ?_, fun p => rfl, fun p => rfl⟩
  · induction dst with
    | nil => rfl
    | cons p rest ih =>
      by_cases h : p.Name = "_Global_" <;>
        simp [collectClrExceptions, clrExceptionsRowStep, h,
          List.filter_cons] at ih ⊢ <;>
        exact ih
  · induction dst with
    | nil => rfl
    | cons p rest ih =>
      by_cases h : p.Name = "_Global_" <;>
        simp [collectClrJIT, clrJITRowStep, h, List.filter_cons] at ih ⊢ <;>
        exact ih

/-- C4: when both pdh sub-collectors fail to construct, the vmware `Build`
returns one joined error referencing both failures in order; when neither
fails, it returns the nil error. -/
theorem vmwareBuild_joins_both_failures :
    (∀ e1 e2 : String, vmwareBuild (some e1) (some e2) =
      ["failed to create VM Processor collector: " ++ e1,
       "failed to create VM Memory collector: " ++ e2]) ∧
    vmwareBuild none none = [] :=
  ⟨fun _ _ => rfl, rfl⟩

/-- C5: the vmware `Collect` always attempts both sub-queries: if the CPU
query fails while the memory query succeeds, all memory samples are still
emitted and the returned error is the wrapped CPU failure (and symmetrically);
if both fail, the joined error lists both failures. -/
theorem vmwareCollect_attempts_both_queries :
    (∀ (e : String) (r : perfDataCounterValuesMemory)
        (rest : List perfDataCounterValuesMemory),
      vmwareCollect (Except.error e) (Except.ok (r :: rest)) =
        some (vmwareMemSamples r,
          ["failed collecting vmware cpu metrics: " ++
            ("failed to collect VM CPU metrics: " ++ e)])) ∧
    (∀ (e : String) (r : perfDataCounterValuesCPU)
        (rest : List perfDataCounterValuesCPU),
      vmwareCollect (Except.ok (r :: rest)) (Except.error e) =
        some (vmwareCpuSamples r,
          ["failed collecting vmware memory metrics: " ++
            ("failed to collect VM Memory metrics: " ++ e)])) ∧
    (∀ e1 e2 : String,
      vmwareCollect (Except.error e1) (Except.error e2) =
        some ([],
          ["failed collecting vmware cpu metrics: " ++
            ("failed to collect VM CPU metrics: " ++ e1),
           "failed collecting vmware memory metrics: " ++
            ("failed to collect VM Memory metrics: " ++ e2)])) :=
  ⟨fun _ _ _ => rfl, fun _ _ _ => rfl, fun _ _ => rfl⟩

/-- C10: `collectMem` and `collectCpu` index row 0 of a successful query
result without a length check: a successful query with zero rows is an
out-of-bounds index (a runtime panic), not a returned error; samples are
emitted with a nil error exactly when a successful query yields at least one
row. -/
theorem vmware_index_zero_unguarded :
    vmwareCollectMem (Except.ok []) = CollectOutcome.outOfBounds ∧
    vmwareCollectCpu (Except.ok []) = CollectOutcome.outOfBounds ∧
    (∀ r rest, vmwareCollectMem (Except.ok (r :: rest)) =
      CollectOutcome.ok (vmwareMemSamples r)) ∧
    (∀ r rest, vmwareCollectCpu (Except.ok (r :: rest)) =
      CollectOutcome.ok (vmwareCpuSamples r)) ∧
    (∀ e, vmwareCollectMem (Except.error e) =
      CollectOutcome.fail ("failed to collect VM Memory metrics: " ++ e)) ∧
    (∀ e, vmwareCollectCpu (Except.error e) =
      CollectOutcome.fail ("failed to collect VM CPU metrics: " ++ e)) :=
  ⟨rfl, rfl, fun _ _ => rfl, fun _ _ => rfl, fun _ => rfl, fun _ => rfl⟩

/-- C1 counterexample: it is false that every collector iterating named
instances emits an instance iff it matches include and not exclude — the CLR
exceptions collector applies no include/exclude filter, so with an include
predicate matching nothing, a non-sentinel row is still emitted. -/
theorem clr_filter_claim_counterexample :
    ¬ (∀ (inc exc : String → Bool)
        (p : Win32_PerfRawData_NETFramework_NETCLRExceptions),
        clrExceptionsRowStep p ≠ [] ↔
          (inc p.Name = true ∧ exc p.Name = false)) := by
  intro h
  have h2 := (h (fun _ => false) (fun _ => false)
    ⟨"myapp", 0, 0, 0, 0, 0⟩).mp (by decide)
  exact Bool.false_ne_true h2.1

/-- C1 amended: the scheduled_task collector emits a task iff its path
matches the include pattern and does not match the exclude pattern; the CLR
exceptions and CLR JIT collectors apply no include/exclude filtering — every
row with a non-sentinel name is emitted regardless of any pattern. -/
theorem include_exclude_filter_semantics :
    (∀ (c : Config) (t : ScheduledTask),
      collectTask c t ≠ [] ↔
        (c.TaskInclude t.Path = true ∧ c.TaskExclude t.Path = false)) ∧
    (∀ p : Win32_PerfRawData_NETFramework_NETCLRExceptions,
      p.Name ≠ "_Global_" → clrExceptionsRowStep p = clrExceptionsSamples p) ∧
    (∀ p : Win32_PerfRawData_NETFramework_NETCLRJit,
      p.Name ≠ "_Global_" → clrJITRowStep p = clrJITSamples p) := by
  refine ⟨fun c t => ?_, fun p hp => ?_, fun p hp => ?_⟩
  · cases hE : c.TaskExclude t.Path <;> cases hI : c.TaskInclude t.Path <;>
      simp [collectTask, hE, hI, taskStateSamples, TASK_STATES]
  · simp [clrExceptionsRowStep, hp]
  · simp [clrJITRowStep, hp]

theorem include_exclude_filter_semantics_witness :
    collectTask ⟨fun _ => false, fun _ => true⟩
        ⟨"t", "/t", true, TASK_STATE_READY, 0, SCHED_S_SUCCESS⟩ ≠ [] ∧
    clrExceptionsRowStep ⟨"myapp2", 1, 2, 3, 4, 5⟩ =
      clrExceptionsSamples ⟨"myapp2", 1, 2, 3, 4, 5⟩ ∧
    clrJITRowStep ⟨"myapp2", 1, 2, 3, 4, 5, 6, 7⟩ =
      clrJITSamples ⟨"myapp2", 1, 2, 3, 4, 5, 6, 7⟩ :=
  ⟨(include_exclude_filter_semantics.1 ⟨fun _ => false, fun _ => true⟩
      ⟨"t", "/t", true, TASK_STATE_READY, 0, SCHED_S_SUCCESS⟩).mpr ⟨rfl, rfl⟩,
   include_exclude_filter_semantics.2.1 _ (by decide),
   include_exclude_filter_semantics.2.2 _ (by decide)⟩

/-- C3: a scheduled task that passes the include/exclude filter and whose
state is RUNNING yields exactly the five state samples, with value 1.0 on the
"running" label and 0.0 on the four others; a task whose last result is the
has-not-run sentinel contributes no last_result or missed_runs sample, while
any other task contributes both, with last_result 1.0 iff the result is 0. -/
theorem scheduled_task_running_and_sentinel (c : Config) (t : ScheduledTask)
    (hexc : c.TaskExclude t.Path = false) (hinc : c.TaskInclude t.Path = true)
    (hrun : t.State = TASK_STATE_RUNNING) :
    taskStateSamples t =
      [ { metric := "state", labels := [t.Path, "disabled"], value := FloatVal.finite 0 },
        { metric := "state", labels := [t.Path, "queued"], value := FloatVal.finite 0 },
        { metric := "state", labels := [t.Path, "ready"], value := FloatVal.finite 0 },
        { metric := "state", labels := [t.Path, "running"], value := FloatVal.finite 1 },
        { metric := "state", labels := [t.Path, "unknown"], value := FloatVal.finite 0 } ] ∧
    (t.LastTaskResult = SCHED_S_TASK_HAS_NOT_RUN →
      collectTask c t = taskStateSamples t) ∧
    (t.LastTaskResult ≠ SCHED_S_TASK_HAS_NOT_RUN →
      collectTask c t = taskStateSamples t ++
        [ { metric := "last_result", labels := [t.Path],
            value := FloatVal.finite
              (if t.LastTaskResult = SCHED_S_SUCCESS then 1 else 0) },
          { metric := "missed_runs", labels := [t.Path],
            value := FloatVal.finite t.MissedRunsCount } ]) := by
  have hl : goToLower (taskStateString TASK_STATE_RUNNING) = "running" := by decide
  refine ⟨?_, fun h => ?_, fun h => ?_⟩
  · simp [taskStateSamples, hrun, hl, TASK_STATES]
  · simp [collectTask, hexc, hinc, taskResultSamples, h]
  · simp [collectTask, hexc, hinc, taskResultSamples, h]

theorem scheduled_task_running_and_sentinel_witness :
    collectTask ⟨fun _ => false, fun _ => true⟩
        ⟨"task1", "/task1", true, TASK_STATE_RUNNING, 5, SCHED_S_SUCCESS⟩ =
      [ { metric := "state", labels := ["/task1", "disabled"], value := FloatVal.finite 0 },
        { metric := "state", labels := ["/task1", "queued"], value := FloatVal.finite 0 },
        { metric := "state", labels := ["/task1", "ready"], value := FloatVal.finite 0 },
        { metric := "state", labels := ["/task1", "running"], value := FloatVal.finite 1 },
        { metric := "state", labels := ["/task1", "unknown"], value := FloatVal.finite 0 },
        { metric := "last_result", labels := ["/task1"], value := FloatVal.finite 1 },
        { metric := "missed_runs", labels := ["/task1"], value := FloatVal.finite 5 } ] := by
  have h := scheduled_task_running_and_sentinel ⟨fun _ => false, fun _ => true⟩
    ⟨"task1", "/task1", true, TASK_STATE_RUNNING, 5, SCHED_S_SUCCESS⟩ rfl rfl rfl
  rw [h.2.2 (by decide), h.1]
  decide

/-- C7: for a non-sentinel CLR JIT row with a non-zero frequency divisor, the
emitted time-in-JIT gauge (the second sample of the row) is exactly the raw
numerator divided by the frequency divisor, computed at emission time; when
the numerator is at most the divisor the quotient lies in [0, 1]. -/
theorem clrJIT_time_in_jit_value (p : Win32_PerfRawData_NETFramework_NETCLRJit)
    (hname : p.Name ≠ "_Global_") (hfreq : p.Frequency_PerfTime ≠ 0) :
    (clrJITRowStep p)[1]? =
      some { metric := "jit_time_percent", labels := [p.Name],
             value := FloatVal.finite
               ((p.PercentTimeinJit : ℚ) / (p.Frequency_PerfTime : ℚ)) } ∧
    (p.PercentTimeinJit ≤ p.Frequency_PerfTime →
      0 ≤ (p.PercentTimeinJit : ℚ) / (p.Frequency_PerfTime : ℚ) ∧
        (p.PercentTimeinJit : ℚ) / (p.Frequency_PerfTime : ℚ) ≤ 1) := by
  have hfq : (p.Frequency_PerfTime : ℚ) ≠ 0 := Nat.cast_ne_zero.mpr hfreq
  refine ⟨?_, fun hle => ⟨?_, ?_⟩⟩
  · simp [clrJITRowStep, hname, clrJITSamples, fdiv, hfq]
  · positivity
  · rw [div_le_one (by positivity)]
    exact_mod_cast hle

theorem clrJIT_time_in_jit_value_witness :
    (clrJITRowStep ⟨"app", 100, 0, 0, 0, 50, 0, 0⟩)[1]? =
      some { metric := "jit_time_percent", labels := ["app"],
             value := FloatVal.finite (1 / 2) } := by
  have h := clrJIT_time_in_jit_value ⟨"app", 100, 0, 0, 0, 50, 0, 0⟩
    (by decide) (by decide)
  rw [h.1]
  norm_num

/-- C8: widening a native 32-bit unsigned counter into the emitted numeric
value is lossless: the emitted sample value is the exact, nonnegative image
of the counter, and distinct counter values give distinct emitted values (no
wrap-around); in particular 4294967295 is emitted as exactly 4294967295. -/
theorem counter_widening_lossless (p : Win32_PerfRawData_NETFramework_NETCLRExceptions)
    (hname : p.Name ≠ "_Global_") (_hv : p.NumberofExcepsThrown ≤ 4294967295) :
    (clrExceptionsRowStep p)[0]? =
      some { metric := "exceptions_thrown_total", labels := [p.Name],
             value := FloatVal.finite (p.NumberofExcepsThrown : ℚ) } ∧
    0 ≤ (p.NumberofExcepsThrown : ℚ) ∧
    (∀ w : Nat, (p.NumberofExcepsThrown : ℚ) = (w : ℚ) →
      p.NumberofExcepsThrown = w) := by
  refine ⟨?_, by positivity, fun w hw => Nat.cast_injective hw⟩
  simp [clrExceptionsRowStep, hname, clrExceptionsSamples]

theorem counter_widening_lossless_witness :
    (clrExceptionsRowStep ⟨"app2", 4294967295, 0, 0, 0, 0⟩)[0]? =
      some { metric := "exceptions_thrown_total", labels := ["app2"],
             value := FloatVal.finite 4294967295 } := by
  have h := counter_widening_lossless ⟨"app2", 4294967295, 0, 0, 0, 0⟩
    (by decide) (by decide)
  rw [h.1]
  norm_num

/-- C9: the time-in-JIT division has no zero guard: a non-sentinel row with
a zero frequency divisor takes no error branch — it still emits its full
four samples — but its time-in-JIT gauge value is non-finite. -/
theorem clrJIT_zero_frequency_still_emitted (p : Win32_PerfRawData_NETFramework_NETCLRJit)
    (hname : p.Name ≠ "_Global_") (hfreq : p.Frequency_PerfTime = 0) :
    clrJITRowStep p = clrJITSamples p ∧
    (clrJITRowStep p).length = 4 ∧
    (clrJITRowStep p)[1]? =
      some { metric := "jit_time_percent", labels := [p.Name],
             value := FloatVal.nonfinite } := by
  refine ⟨by simp [clrJITRowStep, hname], ?_, ?_⟩ <;>
    simp [clrJITRowStep, hname, clrJITSamples, fdiv, hfreq]

theorem clrJIT_zero_frequency_still_emitted_witness :
    clrJITRowStep ⟨"app3", 0, 0, 0, 0, 50, 0, 0⟩ =
      clrJITSamples ⟨"app3", 0, 0, 0, 0, 50, 0, 0⟩ ∧
    (clrJITRowStep ⟨"app3", 0, 0, 0, 0, 50, 0, 0⟩)[1]? =
      some { metric := "jit_time_percent", labels := ["app3"],
             value := FloatVal.nonfinite } := by
  have h := clrJIT_zero_frequency_still_emitted ⟨"app3", 0, 0, 0, 0, 50, 0, 0⟩
    (by decide) rfl
  exact ⟨h.1, h.2.2⟩
